import Mathlib

set_option maxRecDepth 8192

/-!
Verification development for the cluster question-answering service in
`main.py`.  The Python module is shallowly embedded: pure computations
become Lean functions, the external Kubernetes client is abstracted as
explicit fetch outcomes, exceptions become `Except`, and Python name
resolution of the module namespace is made explicit where a name is used
without being defined.
-/

/-- A single quote character, used by the model of the Python `repr` of
strings. -/
def pyQuote : String := String.singleton (Char.ofNat 39)

/-- Scalar values appearing in the dictionaries the module builds: Python
strings, ints, and `None`. -/
inductive PyVal where
  | s (v : String)
  | i (v : Int)
  | none
deriving DecidableEq

/-- Python `repr` of a string, modelled for strings that contain no quote
or escape characters (all strings manipulated by the module). -/
def pyStrRepr (v : String) : String := pyQuote ++ v ++ pyQuote

/-- Python `repr` of a scalar, as used inside the `repr` of a dict. -/
def pyValRepr : PyVal → String
  | PyVal.s v => pyStrRepr v
  | PyVal.i v => toString v
  | PyVal.none => "None"

/-- Python `str` of a scalar, as used by f-string interpolation. -/
def pyValStr : PyVal → String
  | PyVal.s v => v
  | PyVal.i v => toString v
  | PyVal.none => "None"

/-- Python `repr` of a dict whose values have already been rendered. -/
def pyDictRepr (entries : List (String × String)) : String :=
  "\x7b" ++ String.intercalate ", " (entries.map (fun e => pyStrRepr e.1 ++ ": " ++ e.2)) ++ "\x7d"

/-- Python `repr` of a list whose elements have already been rendered. -/
def pyListRepr (elems : List String) : String :=
  "[" ++ String.intercalate ", " elems ++ "]"

/-- The Python exceptions relevant to the module. -/
inductive PyErr where
  | nameError (n : String)
  | attributeError (msg : String)
  | fetchError (msg : String)
deriving DecidableEq

/-- The message of the `AttributeError` raised when `.items()` is called
on a `str` value. -/
def strNoItemsMsg : String :=
  pyQuote ++ "str" ++ pyQuote ++ " object has no attribute " ++ pyQuote ++ "items" ++ pyQuote

/-- Boolean test that a list of characters starts with a given pattern. -/
def listStartsWith : List Char → List Char → Bool
  | [], _ => true
  | _ :: _, [] => false
  | a :: as, b :: bs => a == b && listStartsWith as bs

/-- Boolean substring test on lists of characters. -/
def containsAux (pat : List Char) : List Char → Bool
  | [] => listStartsWith pat []
  | c :: t => listStartsWith pat (c :: t) || containsAux pat t

/-- Boolean substring test on strings: `containsSub s pat` holds when
`pat` occurs inside `s`. -/
def containsSub (s pat : String) : Bool := containsAux pat.data s.data

/-- Characters after the last occurrence of `pat`, or `none` when `pat`
does not occur. -/
def afterLastAux (pat : List Char) : List Char → Option (List Char)
  | [] => Option.none
  | c :: t =>
    match afterLastAux pat t with
    | Option.some r => Option.some r
    | Option.none =>
      if listStartsWith pat (c :: t) then Option.some (List.drop pat.length (c :: t))
      else Option.none

/-- ASCII lower-casing, the model of the Python `str.lower` method. -/
def toLowerStr (s : String) : String := String.mk (s.data.map Char.toLower)

/-- Whitespace characters removed by the Python `str.strip` method. -/
def isPySpace (c : Char) : Bool :=
  c == Char.ofNat 32 || c == Char.ofNat 9 || c == Char.ofNat 10 ||
  c == Char.ofNat 13 || c == Char.ofNat 12 || c == Char.ofNat 11

/-- Model of the Python `str.strip` method. -/
def pyStrip (s : String) : String :=
  String.mk (((s.data.dropWhile isPySpace).reverse.dropWhile isPySpace).reverse)

/-- Drop the first `n` characters of a string. -/
def dropStr (n : Nat) (s : String) : String := String.mk (s.data.drop n)

/-- Boolean suffix test on strings. -/
def endsWithB (s t : String) : Bool := listStartsWith t.data.reverse s.data.reverse

/-- Association-list lookup, the model of reading a Python dict built by
insertion. -/
def alookup {α : Type} : List (String × α) → String → Option α
  | [], _ => Option.none
  | e :: t, k => if e.1 = k then Option.some e.2 else alookup t k

/-- Model of the Python `in` test on a dict. -/
def hasKey {α : Type} (d : List (String × α)) (k : String) : Bool :=
  (alookup d k).isSome

/-- Update the value stored under an existing key. -/
def mapUpdate {α : Type} (f : α → α) (k : String) : List (String × α) → List (String × α)
  | [] => []
  | e :: t => if e.1 = k then (e.1, f e.2) :: t else e :: mapUpdate f k t

/-- Model of `if k not in d: d[k] = []` followed by `d[k].append(v)`. -/
def dictAppend {α : Type} (d : List (String × List α)) (k : String) (v : α) :
    List (String × List α) :=
  let d0 := if hasKey d k then d else d ++ [(k, [])]
  mapUpdate (fun b => b ++ [v]) k d0

/-- Model of the plain dict assignment `d[k] = v`. -/
def dictAssign {α : Type} (d : List (String × α)) (k : String) (v : α) :
    List (String × α) :=
  if hasKey d k then mapUpdate (fun _ => v) k d else d ++ [(k, v)]

/-- Raw service port object returned by the cluster API
(`service.spec.ports` elements). -/
structure RawServicePort where
  port : Int
  target_port : PyVal
  protocol : String
deriving DecidableEq

/-- Raw service object returned by `list_service_for_all_namespaces`. -/
structure RawService where
  metadata_name : String
  metadata_namespace : String
  spec_type : String
  spec_cluster_ip : String
  spec_ports : List RawServicePort
deriving DecidableEq

/-- Raw container object inside a pod spec (`container.name`,
`container.image`, `container.ports`). -/
structure RawContainer where
  name : String
  image : String
  ports : List Int
deriving DecidableEq

/-- Raw pod object returned by `read_namespaced_pod`; the effective
`get_container_info` only reads `spec.containers`. -/
structure RawPodObj where
  spec_containers : List RawContainer
deriving DecidableEq

/-- Per-service record built by the effective (last) definition of
`get_service_info` in `main.py` (lines 319-336): only name, type and
cluster IP are stored. -/
structure ServiceRecord where
  service_name : String
  service_type : String
  cluster_ip : String
deriving DecidableEq

/-- Per-container record built by the effective (last) definition of
`get_container_info` in `main.py` (lines 278-293): only name and image
are stored. -/
structure ContainerRecord where
  container_name : String
  image : String
deriving DecidableEq

/-- Per-node detail dict built by `get_node_info`. -/
structure NodeDetail where
  node_ip : String
  node_maximum_capacity : List (String × String)
  node_conditions : List (String × String)
  node_labels : Option (List (String × String))
deriving DecidableEq

/-- Per-namespace detail dict built by `get_namespace_info`; quota and
limit items are opaque API objects kept as their rendered text. -/
structure NamespaceDetail where
  resource_quotas : List String
  limits : List String
deriving DecidableEq

/-- Per-pod record built by `get_pod_info`. -/
structure PodRecord where
  pod_name : String
  qos_class : PyVal
  restart_policy : PyVal
  init_containers : Nat
  env_vars : List (String × PyVal)
  volume_mounts : List (String × String)
deriving DecidableEq

/-- Per-pod environment-variable record built by `get_pod_env_vars`. -/
structure PodEnvRecord where
  pod_name : String
  env_vars : List (String × PyVal)
deriving DecidableEq

/-- The dict returned by `get_cluster_info`. -/
structure ClusterInfoD where
  kubernetes_version : PyVal
  api_server_endpoint : PyVal
  number_of_nodes : PyVal
deriving DecidableEq

/-- One field of the aggregated dict after the `x or "placeholder"`
substitution in `aggregate_info`: either the fetched dict or the
placeholder string. -/
inductive OrStr (α : Type) where
  | val (a : α)
  | str (s : String)
deriving DecidableEq

/-- Loop body of the effective `get_service_info` (lines 319-336):
group the services by namespace, appending a record with name, type and
cluster IP (the port-enriched definition at lines 251-273 is shadowed by
this one). -/
def svcLoop : List RawService → List (String × List ServiceRecord) →
    List (String × List ServiceRecord)
  | [], acc => acc
  | s :: rest, acc =>
    svcLoop rest (dictAppend acc s.metadata_namespace
      ⟨s.metadata_name, s.spec_type, s.spec_cluster_ip⟩)

/-- Effective (last) definition of `get_service_info`, parameterized by
the outcome of the `list_service_for_all_namespaces` API call. -/
def get_service_info (services : Except PyErr (List RawService)) :
    Except PyErr (List (String × List ServiceRecord)) := do
  let ss ← services
  Except.ok (svcLoop ss [])

/-- Inner loop of the effective `get_container_info`: one
`read_namespaced_pod(name, namespace)` call per pod, storing
`[(container_name, image), ...]` under the pod name. -/
def container_pods_loop (readPod : String → String → Except PyErr RawPodObj)
    (ns : String) : List PodRecord → List (String × List ContainerRecord) →
    Except PyErr (List (String × List ContainerRecord))
  | [], acc => Except.ok acc
  | p :: rest, acc => do
    let pod_obj ← readPod p.pod_name ns
    container_pods_loop readPod ns rest
      (dictAssign acc p.pod_name
        (pod_obj.spec_containers.map (fun c => ⟨c.name, c.image⟩)))

/-- Outer loop of the effective `get_container_info` over the namespaces
of `pod_info`. -/
def container_ns_loop (readPod : String → String → Except PyErr RawPodObj) :
    List (String × List PodRecord) → List (String × List ContainerRecord) →
    Except PyErr (List (String × List ContainerRecord))
  | [], acc => Except.ok acc
  | e :: rest, acc => do
    let acc2 ← container_pods_loop readPod e.1 e.2 acc
    container_ns_loop readPod rest acc2

/-- Effective (last) definition of `get_container_info` (lines 278-293),
parameterized by the `read_namespaced_pod` collaborator (the
port-enriched definition at lines 202-216 is shadowed by this one). -/
def get_container_info (readPod : String → String → Except PyErr RawPodObj)
    (pod_info : List (String × List PodRecord)) :
    Except PyErr (List (String × List ContainerRecord)) :=
  container_ns_loop readPod pod_info []

/-- Outcomes of the eight sub-fetches performed by `aggregate_info`
(lines 343-350).  Each fetch function of `main.py` calls the external
Kubernetes client, so its outcome (a value, or a raised exception) is
abstracted here; `container_info` keeps its data dependency on the pod
list, matching `get_container_info(pod_info)`. -/
structure FetchOutcomes where
  cluster_info : Except PyErr ClusterInfoD
  node_info : Except PyErr (List (String × NodeDetail))
  namespace_info : Except PyErr (List (String × NamespaceDetail))
  workload_info : Except PyErr (List (String × List String))
  service_info : Except PyErr (List (String × List ServiceRecord))
  pod_info : Except PyErr (List (String × List PodRecord))
  container_info : List (String × List PodRecord) →
    Except PyErr (List (String × List ContainerRecord))
  env_info : Except PyErr (List (String × List PodEnvRecord))

/-- Placeholder substituted for a falsy `node_info` (line 353). -/
def nodePlaceholder : String := "Node information is not available."

/-- Placeholder substituted for a falsy `namespace_info` (line 354). -/
def namespacePlaceholder : String := "Namespace information is not available."

/-- Placeholder substituted for a falsy `workload_info` (line 355). -/
def workloadPlaceholder : String := "Workload information is not available."

/-- Placeholder substituted for a falsy `service_info` (line 356). -/
def servicePlaceholder : String := "Service and networking information is not available."

/-- The `combined_info` dict returned by `aggregate_info` (lines
358-367).  The node, namespace, workload and service fields may have
been replaced by their placeholder string; the pod, container and
environment fields never are.  The keys `HPA Information`,
`Storage Driver` and `Scheduler Information` read by `generate_prompt`
are never present in this dict, so their `.get` defaults apply. -/
structure CombinedInfo where
  cluster_info : ClusterInfoD
  node_info : OrStr (List (String × NodeDetail))
  namespace_info : OrStr (List (String × NamespaceDetail))
  workload_info : OrStr (List (String × List String))
  service_info : OrStr (List (String × List ServiceRecord))
  pod_info : List (String × List PodRecord)
  container_info : List (String × List ContainerRecord)
  env_info : List (String × List PodEnvRecord)

/-- Embedding of `aggregate_info` (lines 339-369).  The eight
sub-fetches run in source order with no local exception handling, so
the first raised error propagates.  A falsy (empty) successful result
is replaced by its placeholder per the `x or default` lines 352-356;
the `cluster_info or {...}` substitution is dead code because
`get_cluster_info` always returns a non-empty three-entry dict. -/
def aggregate_info (f : FetchOutcomes) : Except PyErr CombinedInfo :=
  Except.bind f.cluster_info (fun cluster_info =>
  Except.bind f.node_info (fun node_info =>
  Except.bind f.namespace_info (fun namespace_info =>
  Except.bind f.workload_info (fun workload_info =>
  Except.bind f.service_info (fun service_info =>
  Except.bind f.pod_info (fun pod_info =>
  Except.bind (f.container_info pod_info) (fun container_info =>
  Except.bind f.env_info (fun env_info =>
  Except.ok
    { cluster_info := cluster_info
      node_info :=
        if node_info.isEmpty then OrStr.str nodePlaceholder else OrStr.val node_info
      namespace_info :=
        if namespace_info.isEmpty then OrStr.str namespacePlaceholder
        else OrStr.val namespace_info
      workload_info :=
        if workload_info.isEmpty then OrStr.str workloadPlaceholder
        else OrStr.val workload_info
      service_info :=
        if service_info.isEmpty then OrStr.str servicePlaceholder
        else OrStr.val service_info
      pod_info := pod_info
      container_info := container_info
      env_info := env_info }))))))))

/-- The f-string conversion of a per-node detail dict. -/
def nodeDetailRepr (d : NodeDetail) : String :=
  pyDictRepr
    [("node_ip", pyStrRepr d.node_ip),
     ("node_maximum_capacity",
       pyDictRepr (d.node_maximum_capacity.map (fun e => (e.1, pyStrRepr e.2)))),
     ("node_conditions",
       pyDictRepr (d.node_conditions.map (fun e => (e.1, pyStrRepr e.2)))),
     ("node_labels",
       match d.node_labels with
       | Option.none => "None"
       | Option.some m => pyDictRepr (m.map (fun e => (e.1, pyStrRepr e.2))))]

/-- The f-string conversion of a per-namespace detail dict. -/
def namespaceDetailRepr (d : NamespaceDetail) : String :=
  pyDictRepr
    [("resource_quotas", pyListRepr d.resource_quotas),
     ("limits", pyListRepr d.limits)]

/-- The f-string conversion of a per-service record. -/
def serviceRecordRepr (r : ServiceRecord) : String :=
  pyDictRepr
    [("service_name", pyStrRepr r.service_name),
     ("service_type", pyStrRepr r.service_type),
     ("cluster_ip", pyStrRepr r.cluster_ip)]

/-- The f-string conversion of a per-pod record. -/
def podRecordRepr (p : PodRecord) : String :=
  pyDictRepr
    [("pod_name", pyStrRepr p.pod_name),
     ("qos_class", pyValRepr p.qos_class),
     ("restart_policy", pyValRepr p.restart_policy),
     ("init_containers", toString p.init_containers),
     ("env_vars",
       pyListRepr (p.env_vars.map (fun e => pyDictRepr [(e.1, pyValRepr e.2)]))),
     ("volume_mounts",
       pyListRepr (p.volume_mounts.map (fun m =>
         pyDictRepr [("container_name", pyStrRepr m.1), ("mount_path", pyStrRepr m.2)])))]

/-- The f-string conversion of a per-container record. -/
def containerRecordRepr (c : ContainerRecord) : String :=
  pyDictRepr
    [("container_name", pyStrRepr c.container_name),
     ("image", pyStrRepr c.image)]

/-- Line 389: the node section body, one bulleted line per node joined
with newlines. -/
def renderNodes (m : List (String × NodeDetail)) : String :=
  String.intercalate "\n" (m.map (fun e => "- " ++ e.1 ++ ": " ++ nodeDetailRepr e.2))

/-- Line 390: the namespace section body. -/
def renderNamespaces (m : List (String × NamespaceDetail)) : String :=
  String.intercalate "\n" (m.map (fun e => "- " ++ e.1 ++ ": " ++ namespaceDetailRepr e.2))

/-- Lines 391-392: the workload section body, one `len(items)` count per
workload type. -/
def renderWorkloads (m : List (String × List String)) : String :=
  String.intercalate "\n"
    (m.map (fun e => "- " ++ e.1 ++ ": " ++ toString e.2.length ++ " items"))

/-- Line 393: the service section body. -/
def renderServices (m : List (String × List ServiceRecord)) : String :=
  String.intercalate "\n"
    (m.map (fun e => "- " ++ e.1 ++ ": " ++ pyListRepr (e.2.map serviceRecordRepr)))

/-- Line 394: the pod section body. -/
def renderPods (m : List (String × List PodRecord)) : String :=
  String.intercalate "\n"
    (m.map (fun e => "- " ++ e.1 ++ ": " ++ pyListRepr (e.2.map podRecordRepr)))

/-- Line 395: the container section body. -/
def renderContainers (m : List (String × List ContainerRecord)) : String :=
  String.intercalate "\n"
    (m.map (fun e => "- " ++ e.1 ++ ": " ++ pyListRepr (e.2.map containerRecordRepr)))

/-- Template text from the opening of the f-string to the first cluster
bullet (lines 397-401). -/
def segHead : String :=
  "\n    You are a Kubernetes expert. Here is the detailed cluster information:\n\n    Cluster Information:\n    - Kubernetes Version: "

/-- Template text before the API-server bullet (line 402). -/
def segApi : String := "\n    - API Server Endpoint: "

/-- Template text before the node-count bullet (line 403). -/
def segNum : String := "\n    - Number of Nodes: "

/-- Template text before the node section body (lines 405-406). -/
def segNode : String := "\n\n    Node Information:\n    "

/-- Template text before the namespace section body (lines 408-409). -/
def segNs : String := "\n\n    Namespace Information:\n    "

/-- Template text before the workload section body (lines 411-412). -/
def segWl : String := "\n\n    Workload Information:\n    "

/-- Template text before the service section body (lines 414-415). -/
def segSvc : String := "\n\n    Service Information:\n    "

/-- Template text before the pod section body (lines 417-418). -/
def segPod : String := "\n\n    Pod Information:\n    "

/-- Template text before the container section body (lines 420-421). -/
def segCont : String := "\n\n    Container Information:\n    "

/-- Template text for the HPA, storage-driver and scheduler sections,
whose keys are absent from `combined_info`, so each interpolates the
`.get` default string `N/A` (lines 423-431). -/
def segFixed : String :=
  "\n\n    HPA Information:\n    N/A\n\n    Storage Driver:\n    N/A\n\n    Scheduler Information:\n    N/A\n\n    "

/-- The literal label before the interpolated query (line 432). -/
def segQuery : String := "Query: "

/-- The fixed end of the template after the query (lines 432-434). -/
def segEnd : String := "\n    Answer:\n    "

/-- Python evaluation of `field.items()` inside the section-rendering
comprehensions: a dict yields its entries, a placeholder string raises
`AttributeError`. -/
def pyItems {α : Type} : OrStr α → Except PyErr α
  | OrStr.val a => Except.ok a
  | OrStr.str _ => Except.error (PyErr.attributeError strNoItemsMsg)

/-- Embedding of `generate_prompt` (lines 373-436).  The section body
strings are computed in source order (lines 389-395), so the first
placeholder-string field reached raises `AttributeError`; on success the
prompt is the fixed template with the section bodies and the query
interpolated. -/
def generate_prompt (combined_info : CombinedInfo) (query : String) :
    Except PyErr String :=
  Except.bind (pyItems combined_info.node_info) (fun node_info =>
  Except.bind (pyItems combined_info.namespace_info) (fun namespace_info =>
  Except.bind (pyItems combined_info.workload_info) (fun workload_info =>
  Except.bind (pyItems combined_info.service_info) (fun service_info =>
  Except.ok
    (segHead ++ pyValStr combined_info.cluster_info.kubernetes_version ++
     segApi ++ pyValStr combined_info.cluster_info.api_server_endpoint ++
     segNum ++ pyValStr combined_info.cluster_info.number_of_nodes ++
     segNode ++ renderNodes node_info ++
     segNs ++ renderNamespaces namespace_info ++
     segWl ++ renderWorkloads workload_info ++
     segSvc ++ renderServices service_info ++
     segPod ++ renderPods combined_info.pod_info ++
     segCont ++ renderContainers combined_info.container_info ++
     segFixed ++ segQuery ++ query ++ segEnd)))))

/-- The aggregation followed by prompt construction, the only
composition of the two in the module design. -/
def pipelinePrompt (f : FetchOutcomes) (query : String) : Except PyErr String :=
  (aggregate_info f).bind (fun info => generate_prompt info query)

/-- Observable side effects of the request handler: log writes and
cluster fetches.  The handler body of `create_query` performs log writes
only; a fetch effect would arise only from calling one of the `get_*`
functions, which `create_query` never does. -/
inductive Effect where
  | logMsg (msg : String)
  | fetch (kind : String)
deriving DecidableEq

/-- True when the trace contains no cluster fetch. -/
def noFetch (tr : List Effect) : Bool :=
  tr.all (fun e => match e with | Effect.fetch _ => false | _ => true)

/-- Result of one `POST /query` request: the jsonified success response,
the 400 response produced by the `except ValidationError` clause, or an
exception that escapes the handler (Flask turns it into a 500). -/
inductive HandlerResult where
  | success (query answer : String)
  | clientError (detail : String)
  | unhandled (e : PyErr)
deriving DecidableEq

/-- The pydantic v1 validation detail for passing `None` where
`QueryResponse` requires a `str`. -/
def validationDetailNone : String := "none is not an allowed value"

/-- Python `str` of an optional string, as interpolated by the f-string
in the log call (`str(None)` is `None`). -/
def pyOptStr : Option String → String
  | Option.some s => s
  | Option.none => "None"

/-- The top-level names the module defines or imports: the three
imports of line 2-3 plus every `def`/assignment executed at module
level.  Neither `get_agent_response` nor the kubernetes `config` and
`client` names are among them. -/
def definedNames : List String :=
  ["logging", "Flask", "request", "jsonify", "BaseModel", "ValidationError",
   "app", "QueryResponse", "get_cluster_info", "get_node_info",
   "get_namespace_info", "get_workload_info", "get_service_info",
   "get_pod_info", "get_container_info", "get_pod_env_vars", "get_hpa_info",
   "get_storage_driver", "get_scheduler_info", "aggregate_info",
   "generate_prompt", "create_query"]

/-- Body of the `create_query` handler (lines 439-454), parameterized by
the resolution of the free name `get_agent_response`: `none` models the
`NameError` raised because the module never defines that name, `some f`
models an interpreter state in which the name is bound to `f`.  The
`except` clause catches only `ValidationError`, so the `NameError`
escapes; with the name bound, a missing or `None` query makes the
pydantic `QueryResponse` constructor raise `ValidationError`, which is
returned as a 400. -/
def create_query_body (gar : Option (Option String → String))
    (body : List (String × String)) : HandlerResult × List Effect :=
  let query := alookup body "query"
  let tr0 := [Effect.logMsg ("Received query: " ++ pyOptStr query)]
  match gar with
  | Option.none => (HandlerResult.unhandled (PyErr.nameError "get_agent_response"), tr0)
  | Option.some f =>
    let answer := f query
    let tr1 := tr0 ++ [Effect.logMsg ("Generated answer: " ++ answer)]
    match query with
    | Option.some q => (HandlerResult.success q answer, tr1)
    | Option.none => (HandlerResult.clientError validationDetailNone, tr1)

/-- Resolution of the name `get_agent_response` in the module namespace:
the module never defines or imports it, so resolution fails. -/
def get_agent_response_resolved : Option (Option String → String) := Option.none

/-- The `create_query` handler as the module actually runs it. -/
def create_query (body : List (String × String)) : HandlerResult × List Effect :=
  create_query_body get_agent_response_resolved body

/-- True exactly for a success response. -/
def isSuccessR : HandlerResult → Bool
  | HandlerResult.success _ _ => true
  | _ => false

/-- True exactly for a raised result. -/
def isOkE {α : Type} : Except PyErr α → Bool
  | Except.ok _ => true
  | Except.error _ => false

/-- The string carried by a successful prompt computation, or the empty
string on error. -/
def okOr (e : Except PyErr String) : String :=
  match e with
  | Except.ok s => s
  | Except.error _ => ""

/-- Intents of the keyword-routed variant described by the spec. -/
inductive Intent where
  | clusterInfo
  | podInfo (ns : String)
  | generatedAnswer
deriving DecidableEq

/-- Modelled from the spec: the repository code under `src/` contains no
IntentRouter (its `create_query` dispatches every request to the
undefined `get_agent_response`), so the router of the keyword-routed
variant is taken from spec section 4.4 and section 8: case-insensitive
substring match, `cluster info` before `pod info`; the namespace is the
trimmed text after the last occurrence of `namespace` in the lower-cased
query, or `default` when that word is absent. -/
def classify (query : String) : Intent :=
  let lq := toLowerStr query
  if containsSub lq "cluster info" then Intent.clusterInfo
  else if containsSub lq "pod info" then
    if containsSub lq "namespace" then
      match afterLastAux ("namespace").data lq.data with
      | Option.some r => Intent.podInfo (pyStrip (String.mk r))
      | Option.none => Intent.podInfo "default"
    else Intent.podInfo "default"
  else Intent.generatedAnswer

/-- A sample per-node detail dict. -/
def nodeDetail1 : NodeDetail :=
  ⟨"10.0.0.5", [("cpu", "4")], [("Ready", "True")], Option.some [("role", "node")]⟩

/-- A sample per-pod record. -/
def podRec1 : PodRecord :=
  ⟨"pod1", PyVal.s "Guaranteed", PyVal.s "Always", 0, [("VAR", PyVal.s "v")],
   [("c1", "/data")]⟩

/-- Fetch outcomes in which the namespace sub-fetch raises while every
other sub-fetch succeeds with a non-empty result. -/
def envC2 : FetchOutcomes where
  cluster_info := Except.ok ⟨PyVal.s "v1.29.0", PyVal.s "ep", PyVal.i 3⟩
  node_info := Except.ok [("n1", nodeDetail1)]
  namespace_info := Except.error (PyErr.fetchError "namespaces unreachable")
  workload_info := Except.ok [("deployments", ["d1"])]
  service_info := Except.ok [("default", [⟨"svc1", "ClusterIP", "10.0.0.1"⟩])]
  pod_info := Except.ok [("default", [podRec1])]
  container_info := fun _ => Except.ok [("pod1", [⟨"c1", "img"⟩])]
  env_info := Except.ok [("default", [⟨"pod1", [("VAR", PyVal.s "v")]⟩])]

/-- Fetch outcomes in which only the cluster and node sub-fetches are
reached before the namespace sub-fetch raises. -/
def envC2w : FetchOutcomes where
  cluster_info := Except.ok ⟨PyVal.s "v2", PyVal.s "ep2", PyVal.i 1⟩
  node_info := Except.ok [("m1", nodeDetail1)]
  namespace_info := Except.error (PyErr.fetchError "boom")
  workload_info := Except.ok []
  service_info := Except.ok []
  pod_info := Except.ok []
  container_info := fun _ => Except.ok []
  env_info := Except.ok []

/-- Fetch outcomes in which every sub-fetch succeeds but the namespace,
service and pod collections are empty. -/
def envC3 : FetchOutcomes where
  cluster_info := Except.ok ⟨PyVal.s "v1.29.0", PyVal.s "ep", PyVal.i 3⟩
  node_info := Except.ok [("n1", nodeDetail1)]
  namespace_info := Except.ok []
  workload_info := Except.ok [("deployments", ["d1"])]
  service_info := Except.ok []
  pod_info := Except.ok []
  container_info := fun _ => Except.ok []
  env_info := Except.ok []

/-- Fetch outcomes in which every collection, nodes included, is empty. -/
def envC3w : FetchOutcomes where
  cluster_info := Except.ok ⟨PyVal.s "v0", PyVal.s "e0", PyVal.i 0⟩
  node_info := Except.ok []
  namespace_info := Except.ok []
  workload_info := Except.ok []
  service_info := Except.ok []
  pod_info := Except.ok []
  container_info := fun _ => Except.ok []
  env_info := Except.ok []

/-- A fully populated `combined_info` snapshot. -/
def infoC4 : CombinedInfo where
  cluster_info := ⟨PyVal.s "v1", PyVal.s "ep", PyVal.i 3⟩
  node_info := OrStr.val [("n1", nodeDetail1)]
  namespace_info := OrStr.val [("default", ⟨[], []⟩)]
  workload_info := OrStr.val [("deployments", ["x"])]
  service_info := OrStr.val [("default", [⟨"s1", "ClusterIP", "10.0.0.1"⟩])]
  pod_info := [("default", [podRec1])]
  container_info := [("pod1", [⟨"c1", "img"⟩])]
  env_info := [("default", [⟨"pod1", [("VAR", PyVal.s "v")]⟩])]

/-- A snapshot whose mappings are all empty dicts. -/
def infoW4 : CombinedInfo where
  cluster_info := ⟨PyVal.s "v9", PyVal.s "e9", PyVal.i 9⟩
  node_info := OrStr.val []
  namespace_info := OrStr.val []
  workload_info := OrStr.val []
  service_info := OrStr.val []
  pod_info := []
  container_info := []
  env_info := []

/-- A snapshot exercising every section of the template. -/
def infoW8 : CombinedInfo where
  cluster_info := ⟨PyVal.s "v8", PyVal.s "e8", PyVal.i 2⟩
  node_info := OrStr.val [("n8", nodeDetail1)]
  namespace_info := OrStr.val [("ns8", ⟨["q"], []⟩)]
  workload_info := OrStr.val [("jobs", ["j1", "j2"])]
  service_info := OrStr.val [("ns8", [⟨"s8", "NodePort", "10.0.0.8"⟩])]
  pod_info := [("ns8", [podRec1])]
  container_info := [("pod1", [⟨"c8", "img8"⟩])]
  env_info := []

/-- A raw service that declares one port mapping 80 to 8080 over TCP. -/
def svcPorts : RawService :=
  ⟨"s1", "ns1", "ClusterIP", "10.0.0.1", [⟨80, PyVal.i 8080, "TCP"⟩]⟩

/-- The same raw service with its port mappings removed. -/
def svcNoPorts : RawService := ⟨"s1", "ns1", "ClusterIP", "10.0.0.1", []⟩

/-- A `read_namespaced_pod` collaborator returning one container that
declares port 80. -/
def readPodPorts : String → String → Except PyErr RawPodObj :=
  fun _ _ => Except.ok ⟨[⟨"c1", "img1", [80]⟩]⟩

/-- The same collaborator with the declared ports removed. -/
def readPodNoPorts : String → String → Except PyErr RawPodObj :=
  fun _ _ => Except.ok ⟨[⟨"c1", "img1", []⟩]⟩

/-- A pod listing with a single pod `p1` in namespace `ns1`. -/
def podInfoC6 : List (String × List PodRecord) :=
  [("ns1", [⟨"p1", PyVal.s "BestEffort", PyVal.s "Always", 0, [], []⟩])]

/-- A stand-in binding for `get_agent_response`, used to show what the
handler would do if the name resolved. -/
def garStub : Option String → String := fun _ => "stub"

/-- Two strings with the same character data are equal. -/
theorem strEq_of_data (a b : String) (h : a.data = b.data) : a = b := by
  cases a; cases b; exact congrArg String.mk h

/-- The constructor applied to the data of a string gives it back. -/
theorem strMkData (s : String) : String.mk s.data = s := by
  cases s; rfl

/-- Character data of an appended string. -/
theorem strData_append (a b : String) : (a ++ b).data = a.data ++ b.data := by
  cases a; cases b; rfl

/-- String append is associative. -/
theorem strAppend_assoc (a b c : String) : a ++ b ++ c = a ++ (b ++ c) := by
  apply strEq_of_data
  simp [strData_append]

/-- A list starts with itself extended by anything. -/
theorem listStartsWith_append (p r : List Char) : listStartsWith p (p ++ r) = true := by
  induction p with
  | nil => rfl
  | cons a as ih => simp [listStartsWith, ih]

/-- A list starts with itself. -/
theorem listStartsWith_refl (p : List Char) : listStartsWith p p = true := by
  have h := listStartsWith_append p []
  simpa using h

/-- Characterization of the prefix test. -/
theorem listStartsWith_iff (p : List Char) : ∀ s : List Char,
    listStartsWith p s = true ↔ ∃ r, s = p ++ r := by
  induction p with
  | nil =>
    intro s
    simp [listStartsWith]
  | cons a as ih =>
    intro s
    cases s with
    | nil => simp [listStartsWith]
    | cons b bs =>
      simp only [listStartsWith, Bool.and_eq_true, beq_iff_eq, ih, List.cons_append]
      constructor
      · rintro ⟨hab, r, hr⟩
        exact ⟨r, by rw [hab, hr]⟩
      · rintro ⟨r, hr⟩
        injection hr with h1 h2
        exact ⟨h1.symm, r, h2⟩

/-- Characterization of the substring test. -/
theorem containsAux_iff (p : List Char) : ∀ s : List Char,
    containsAux p s = true ↔ ∃ x y, s = x ++ p ++ y := by
  intro s
  induction s with
  | nil =>
    rw [containsAux, listStartsWith_iff]
    constructor
    · rintro ⟨r, hr⟩
      exact ⟨[], r, by simpa using hr⟩
    · rintro ⟨x, y, hxy⟩
      rcases List.append_eq_nil.mp (List.append_eq_nil.mp hxy.symm).1 with ⟨hx, hp⟩
      exact ⟨[], by simp [hp]⟩
  | cons c t ih =>
    rw [containsAux, Bool.or_eq_true, listStartsWith_iff, ih]
    constructor
    · rintro (⟨r, hr⟩ | ⟨x, y, hxy⟩)
      · exact ⟨[], r, by simpa using hr⟩
      · exact ⟨c :: x, y, by simp [hxy]⟩
    · rintro ⟨x, y, hxy⟩
      cases x with
      | nil => exact Or.inl ⟨y, by simpa using hxy⟩
      | cons d ds =>
        right
        simp only [List.cons_append] at hxy
        injection hxy with h1 h2
        exact ⟨ds, y, h2⟩

/-- Characterization of the substring test at the string level. -/
theorem containsSub_iff (s pat : String) :
    containsSub s pat = true ↔ ∃ x y : String, s = x ++ pat ++ y := by
  rw [containsSub, containsAux_iff]
  constructor
  · rintro ⟨x, y, hxy⟩
    refine ⟨String.mk x, String.mk y, ?_⟩
    apply strEq_of_data
    simp [strData_append, hxy]
  · rintro ⟨x, y, hxy⟩
    exact ⟨x.data, y.data, by rw [hxy]; simp [strData_append]⟩

/-- A last-occurrence search that returns a result implies an occurrence. -/
theorem afterLast_isSome_contains (p : List Char) : ∀ s : List Char,
    (afterLastAux p s).isSome = true → containsAux p s = true := by
  intro s
  induction s with
  | nil => simp [afterLastAux]
  | cons c t ih =>
    intro h
    rw [containsAux, Bool.or_eq_true]
    rw [afterLastAux] at h
    cases ha : afterLastAux p t with
    | some r => exact Or.inr (ih (by simp [ha]))
    | none =>
      rw [ha] at h
      by_cases hp : listStartsWith p (c :: t) = true
      · exact Or.inl hp
      · simp [hp] at h

/-- Without an occurrence the last-occurrence search returns nothing. -/
theorem afterLast_none_of_not_contains (p s : List Char)
    (h : containsAux p s = false) : afterLastAux p s = Option.none := by
  cases ha : afterLastAux p s with
  | none => rfl
  | some r =>
    have := afterLast_isSome_contains p s (by simp [ha])
    rw [this] at h
    cases h

/-- When no occurrence of `p` starts after the exhibited one, the
last-occurrence search returns exactly the characters after it. -/
theorem afterLast_complete (p y : List Char) (hp : p ≠ [])
    (hno : containsAux p (p.drop 1 ++ y) = false) :
    ∀ x, afterLastAux p (x ++ p ++ y) = Option.some y := by
  intro x
  induction x with
  | nil =>
    cases p with
    | nil => exact absurd rfl hp
    | cons a as =>
      have hnone : afterLastAux (a :: as) (as ++ y) = Option.none :=
        afterLast_none_of_not_contains _ _ (by simpa using hno)
      have hsw : listStartsWith (a :: as) (a :: (as ++ y)) = true := by
        have h := listStartsWith_append (a :: as) y
        simpa using h
      show afterLastAux (a :: as) ([] ++ (a :: as) ++ y) = Option.some y
      have hshape : [] ++ (a :: as) ++ y = a :: (as ++ y) := by simp
      rw [hshape, afterLastAux, hnone]
      rw [if_pos hsw]
      have hshape2 : a :: (as ++ y) = (a :: as) ++ y := by simp
      rw [hshape2, List.drop_left]
  | cons c x2 ih =>
    show afterLastAux p ((c :: x2) ++ p ++ y) = Option.some y
    have hshape : (c :: x2) ++ p ++ y = c :: (x2 ++ p ++ y) := by simp
    rw [hshape, afterLastAux, ih]

/-- A prefix survives extension on the right. -/
theorem listStartsWith_extend (p s r : List Char) (h : listStartsWith p s = true) :
    listStartsWith p (s ++ r) = true := by
  rcases (listStartsWith_iff p s).mp h with ⟨u, hu⟩
  rw [hu, List.append_assoc]
  exact listStartsWith_append _ _

/-- A string ends with itself. -/
theorem endsWithB_refl (s : String) : endsWithB s s = true :=
  listStartsWith_refl _

/-- A suffix of the right operand is a suffix of an append. -/
theorem endsWithB_append_left (a c b : String) (h : endsWithB c b = true) :
    endsWithB (a ++ c) b = true := by
  rw [endsWithB, strData_append, List.reverse_append]
  exact listStartsWith_extend _ _ _ h

/-- C1: the module namespace of `main.py` defines neither
`get_agent_response` nor the kubernetes `config`/`client` names, so for
every request body the `create_query` handler stops with an unhandled
`NameError` at the call to `get_agent_response` and never produces a
success response. -/
theorem c1_handler_always_name_error :
    definedNames.contains "get_agent_response" = false ∧
    definedNames.contains "config" = false ∧
    definedNames.contains "client" = false ∧
    ∀ body : List (String × String),
      (create_query body).1 = HandlerResult.unhandled (PyErr.nameError "get_agent_response") ∧
      isSuccessR (create_query body).1 = false :=
  ⟨by decide, by decide, by decide, fun _ => ⟨rfl, rfl⟩⟩

/-- C5 evaluation: two service listings that differ only in their port
mappings produce identical outputs of the effective `get_service_info`,
whose records carry only name, type and cluster IP; the port mappings
promised by the spec (and by the shadowed definition at lines 251-273)
are absent. -/
theorem c5_service_record_has_no_ports :
    get_service_info (Except.ok [svcPorts]) =
      Except.ok [("ns1", [⟨"s1", "ClusterIP", "10.0.0.1"⟩])] ∧
    get_service_info (Except.ok [svcNoPorts]) =
      Except.ok [("ns1", [⟨"s1", "ClusterIP", "10.0.0.1"⟩])] ∧
    svcPorts.spec_ports ≠ svcNoPorts.spec_ports :=
  ⟨rfl, rfl, by decide⟩

/-- C6 evaluation: two `read_namespaced_pod` collaborators that differ
only in the declared container ports produce identical outputs of the
effective `get_container_info`, whose records carry only container name
and image; the declared ports promised by the spec (and by the shadowed
definition at lines 202-216) are absent. -/
theorem c6_container_record_has_no_ports :
    get_container_info readPodPorts podInfoC6 =
      Except.ok [("p1", [⟨"c1", "img1"⟩])] ∧
    get_container_info readPodNoPorts podInfoC6 =
      Except.ok [("p1", [⟨"c1", "img1"⟩])] ∧
    readPodPorts "p1" "ns1" = Except.ok ⟨[⟨"c1", "img1", [80]⟩]⟩ ∧
    readPodNoPorts "p1" "ns1" = Except.ok ⟨[⟨"c1", "img1", []⟩]⟩ :=
  ⟨rfl, rfl, rfl, rfl⟩

/-- C9 evaluation: a request body without the `query` key makes the
handler raise the unhandled `NameError` (a 500, not the claimed 4xx
validation response); no fetch effect occurs; and under a binding for
`get_agent_response` the handler would instead return the 400 produced
by the `except ValidationError` clause. -/
theorem c9_missing_query_name_error :
    create_query [] =
      (HandlerResult.unhandled (PyErr.nameError "get_agent_response"),
       [Effect.logMsg "Received query: None"]) ∧
    noFetch (create_query []).2 = true ∧
    create_query_body (Option.some garStub) [] =
      (HandlerResult.clientError validationDetailNone,
       [Effect.logMsg "Received query: None", Effect.logMsg "Generated answer: stub"]) :=
  ⟨rfl, rfl, rfl⟩

/-- C10: whatever binding the free name `get_agent_response` receives,
whenever the handler body returns a success response its `query` field
is exactly the `query` value of the request body, unmodified. -/
theorem c10_success_echoes_query (gar : Option (Option String → String))
    (body : List (String × String)) (q a : String) (tr : List Effect)
    (h : create_query_body gar body = (HandlerResult.success q a, tr)) :
    alookup body "query" = Option.some q := by
  unfold create_query_body at h
  cases gar with
  | none => simp at h
  | some f =>
    cases hq : alookup body "query" with
    | none => simp [hq] at h
    | some s =>
      simp only [hq] at h
      injection h with h1 h2
      injection h1 with h3 h4
      rw [h3]

/-- Witness for C10 at a concrete request. -/
theorem c10_success_echoes_query_witness :
    create_query_body (Option.some (fun _ => "ans")) [("query", "hello")] =
      (HandlerResult.success "hello" "ans",
       [Effect.logMsg "Received query: hello", Effect.logMsg "Generated answer: ans"]) ∧
    alookup [("query", "hello")] "query" = Option.some "hello" :=
  ⟨rfl, c10_success_echoes_query (Option.some (fun _ => "ans"))
    [("query", "hello")] "hello" "ans" _ rfl⟩

/-- C2 counterexample: with the namespace sub-fetch raising and every
other sub-fetch succeeding, `aggregate_info` does not substitute a
placeholder but fails outright, propagating the raised error. -/
theorem c2_failed_subfetch_aborts_aggregation :
    aggregate_info envC2 = Except.error (PyErr.fetchError "namespaces unreachable") ∧
    isOkE envC2.cluster_info = true ∧
    isOkE envC2.node_info = true ∧
    isOkE envC2.workload_info = true ∧
    isOkE envC2.service_info = true ∧
    isOkE envC2.pod_info = true ∧
    isOkE envC2.env_info = true ∧
    isOkE (aggregate_info envC2) = false :=
  ⟨rfl, rfl, rfl, rfl, rfl, rfl, rfl, rfl⟩

/-- C2 amended: `aggregate_info` has no local error handling, so a
raising sub-fetch aborts the whole aggregation and its error propagates
unchanged; the placeholder substitution applies only to an empty
successful result of the namespace (and node/workload/service) fetch. -/
theorem c2_aggregation_error_propagation :
    (∀ (f : FetchOutcomes) (c : ClusterInfoD) (n : List (String × NodeDetail)) (e : PyErr),
      f.cluster_info = Except.ok c → f.node_info = Except.ok n →
      f.namespace_info = Except.error e → aggregate_info f = Except.error e) ∧
    (∀ (f : FetchOutcomes) (info : CombinedInfo),
      aggregate_info f = Except.ok info → f.namespace_info = Except.ok [] →
      info.namespace_info = OrStr.str namespacePlaceholder) := by
  constructor
  · intro f c n e hc hn he
    unfold aggregate_info
    rw [hc, hn, he]
    rfl
  · intro f info hok hns
    unfold aggregate_info at hok
    cases hc : f.cluster_info with
    | error e => rw [hc] at hok; simp [Except.bind] at hok
    | ok c =>
    rw [hc] at hok
    simp only [Except.bind] at hok
    cases hn : f.node_info with
    | error e => rw [hn] at hok; simp [Except.bind] at hok
    | ok n =>
    rw [hn] at hok
    simp only [Except.bind] at hok
    rw [hns] at hok
    simp only [Except.bind] at hok
    cases hw : f.workload_info with
    | error e => rw [hw] at hok; simp [Except.bind] at hok
    | ok w =>
    rw [hw] at hok
    simp only [Except.bind] at hok
    cases hs : f.service_info with
    | error e => rw [hs] at hok; simp [Except.bind] at hok
    | ok s =>
    rw [hs] at hok
    simp only [Except.bind] at hok
    cases hp : f.pod_info with
    | error e => rw [hp] at hok; simp [Except.bind] at hok
    | ok p =>
    rw [hp] at hok
    simp only [Except.bind] at hok
    cases hct : f.container_info p with
    | error e => rw [hct] at hok; simp [Except.bind] at hok
    | ok ct =>
    rw [hct] at hok
    simp only [Except.bind] at hok
    cases hev : f.env_info with
    | error e => rw [hev] at hok; simp [Except.bind] at hok
    | ok ev =>
    rw [hev] at hok
    simp only [Except.bind, Except.ok.injEq] at hok
    subst hok
    rfl

/-- Witness for C2 at a concrete set of fetch outcomes. -/
theorem c2_aggregation_error_propagation_witness :
    aggregate_info envC2w = Except.error (PyErr.fetchError "boom") :=
  c2_aggregation_error_propagation.1 envC2w
    ⟨PyVal.s "v2", PyVal.s "ep2", PyVal.i 1⟩ [("m1", nodeDetail1)]
    (PyErr.fetchError "boom") rfl rfl rfl

/-- C3 counterexample: with empty namespace, service and pod
collections the aggregation substitutes placeholder strings and
`generate_prompt` then raises `AttributeError` instead of rendering
empty section bodies. -/
theorem c3_empty_snapshot_prompt_raises :
    envC3.namespace_info = Except.ok [] ∧
    envC3.service_info = Except.ok [] ∧
    envC3.pod_info = Except.ok [] ∧
    pipelinePrompt envC3 "q" = Except.error (PyErr.attributeError strNoItemsMsg) ∧
    isOkE (pipelinePrompt envC3 "q") = false :=
  ⟨rfl, rfl, rfl, rfl, rfl⟩

/-- C3 amended: for every set of successful fetch outcomes whose
namespace, service and pod collections are empty, the placeholder
substitution stores strings where `generate_prompt` expects dicts, so
the prompt path always fails with the `AttributeError` of calling
`.items()` on a `str` rather than serializing. -/
theorem c3_empty_collections_fail_serialization
    (f : FetchOutcomes) (c : ClusterInfoD) (nd : List (String × NodeDetail))
    (wl : List (String × List String)) (ce : List (String × List ContainerRecord))
    (ev : List (String × List PodEnvRecord)) (q : String)
    (hc : f.cluster_info = Except.ok c) (hn : f.node_info = Except.ok nd)
    (hns : f.namespace_info = Except.ok []) (hw : f.workload_info = Except.ok wl)
    (hs : f.service_info = Except.ok []) (hp : f.pod_info = Except.ok [])
    (hct : f.container_info [] = Except.ok ce) (hev : f.env_info = Except.ok ev) :
    pipelinePrompt f q = Except.error (PyErr.attributeError strNoItemsMsg) := by
  unfold pipelinePrompt aggregate_info
  rw [hc, hn, hns, hw, hs, hp, hev]
  simp only [Except.bind]
  rw [hct]
  simp only [Except.bind]
  unfold generate_prompt
  by_cases hnd : nd.isEmpty = true
  · simp [hnd, pyItems, Except.bind]
  · simp [hnd, pyItems, Except.bind]

/-- Witness for C3 at a concrete set of fetch outcomes. -/
theorem c3_empty_collections_fail_serialization_witness :
    pipelinePrompt envC3w "zz" = Except.error (PyErr.attributeError strNoItemsMsg) :=
  c3_empty_collections_fail_serialization envC3w
    ⟨PyVal.s "v0", PyVal.s "e0", PyVal.i 0⟩ [] [] [] [] "zz"
    rfl rfl rfl rfl rfl rfl rfl rfl

/-- C4 counterexample: on a fully populated snapshot the generated
prompt ends with the fixed text `Query: q` followed by `Answer:` and
trailing indentation, and the word `word` does not occur anywhere in
it, so the prompt does not end with (or contain) an instruction to
answer in one word, and no code of the module forwards it to a
generator. -/
theorem c4_prompt_lacks_one_word_instruction :
    isOkE (generate_prompt infoC4 "q") = true ∧
    endsWithB (okOr (generate_prompt infoC4 "q")) ("Query: q" ++ segEnd) = true ∧
    containsSub (okOr (generate_prompt infoC4 "q")) "word" = false :=
  ⟨rfl, by decide, by decide⟩

/-- C4 amended: every successfully generated prompt ends with the fixed
suffix `Query: ` plus the query plus a newline, `Answer:` and the
closing indentation of the template, with no further instruction; and
the generator name `get_agent_response` is undefined, so nothing is
ever forwarded to an external generator. -/
theorem c4_prompt_fixed_tail (combined_info : CombinedInfo) (q s : String)
    (h : generate_prompt combined_info q = Except.ok s) :
    endsWithB s (segQuery ++ q ++ segEnd) = true ∧
    definedNames.contains "get_agent_response" = false := by
  refine ⟨?_, by decide⟩
  cases hn : combined_info.node_info with
  | str t => unfold generate_prompt at h; rw [hn] at h; simp [pyItems, Except.bind] at h
  | val nm =>
  cases hns : combined_info.namespace_info with
  | str t =>
    unfold generate_prompt at h; rw [hn, hns] at h; simp [pyItems, Except.bind] at h
  | val nsm =>
  cases hw : combined_info.workload_info with
  | str t =>
    unfold generate_prompt at h; rw [hn, hns, hw] at h; simp [pyItems, Except.bind] at h
  | val wm =>
  cases hs : combined_info.service_info with
  | str t =>
    unfold generate_prompt at h; rw [hn, hns, hw, hs] at h
    simp [pyItems, Except.bind] at h
  | val sm =>
  unfold generate_prompt at h
  rw [hn, hns, hw, hs] at h
  simp only [pyItems, Except.bind, Except.ok.injEq] at h
  subst h
  simp only [strAppend_assoc]
  repeat
    first
    | exact endsWithB_refl _
    | apply endsWithB_append_left

/-- Witness for C4 at a concrete snapshot and query. -/
theorem c4_prompt_fixed_tail_witness :
    generate_prompt infoW4 "hi" = Except.ok (okOr (generate_prompt infoW4 "hi")) ∧
    endsWithB (okOr (generate_prompt infoW4 "hi")) (segQuery ++ "hi" ++ segEnd) = true :=
  ⟨rfl, (c4_prompt_fixed_tail infoW4 "hi" (okOr (generate_prompt infoW4 "hi")) rfl).1⟩

/-- C8: `generate_prompt` is deterministic (identical inputs give a
byte-identical result), and on success the prompt is exactly the fixed
template in its fixed section order, each mapping rendered by joining
its entries in stored (insertion) order without re-sorting. -/
theorem c8_prompt_deterministic_fixed_order (combined_info : CombinedInfo) (q : String) :
    (∀ (info2 : CombinedInfo) (q2 : String), combined_info = info2 → q = q2 →
      generate_prompt combined_info q = generate_prompt info2 q2) ∧
    (∀ (nm : List (String × NodeDetail)) (nsm : List (String × NamespaceDetail))
       (wm : List (String × List String)) (sm : List (String × List ServiceRecord)),
      combined_info.node_info = OrStr.val nm →
      combined_info.namespace_info = OrStr.val nsm →
      combined_info.workload_info = OrStr.val wm →
      combined_info.service_info = OrStr.val sm →
      generate_prompt combined_info q = Except.ok
        (segHead ++ pyValStr combined_info.cluster_info.kubernetes_version ++
         segApi ++ pyValStr combined_info.cluster_info.api_server_endpoint ++
         segNum ++ pyValStr combined_info.cluster_info.number_of_nodes ++
         segNode ++ String.intercalate "\n"
           (nm.map (fun e => "- " ++ e.1 ++ ": " ++ nodeDetailRepr e.2)) ++
         segNs ++ String.intercalate "\n"
           (nsm.map (fun e => "- " ++ e.1 ++ ": " ++ namespaceDetailRepr e.2)) ++
         segWl ++ String.intercalate "\n"
           (wm.map (fun e => "- " ++ e.1 ++ ": " ++ toString e.2.length ++ " items")) ++
         segSvc ++ String.intercalate "\n"
           (sm.map (fun e => "- " ++ e.1 ++ ": " ++ pyListRepr (e.2.map serviceRecordRepr))) ++
         segPod ++ String.intercalate "\n"
           (combined_info.pod_info.map
             (fun e => "- " ++ e.1 ++ ": " ++ pyListRepr (e.2.map podRecordRepr))) ++
         segCont ++ String.intercalate "\n"
           (combined_info.container_info.map
             (fun e => "- " ++ e.1 ++ ": " ++ pyListRepr (e.2.map containerRecordRepr))) ++
         segFixed ++ segQuery ++ q ++ segEnd)) := by
  constructor
  · intro info2 q2 h1 h2
    rw [h1, h2]
  · intro nm nsm wm sm hn hns hw hs
    unfold generate_prompt
    rw [hn, hns, hw, hs]
    simp only [pyItems, Except.bind]
    rfl

/-- Witness for C8 at a concrete snapshot and query. -/
theorem c8_prompt_deterministic_fixed_order_witness :
    generate_prompt infoW8 "z" = Except.ok
      (segHead ++ pyValStr infoW8.cluster_info.kubernetes_version ++
       segApi ++ pyValStr infoW8.cluster_info.api_server_endpoint ++
       segNum ++ pyValStr infoW8.cluster_info.number_of_nodes ++
       segNode ++ String.intercalate "\n"
         ([("n8", nodeDetail1)].map (fun e => "- " ++ e.1 ++ ": " ++ nodeDetailRepr e.2)) ++
       segNs ++ String.intercalate "\n"
         ([("ns8", (⟨["q"], []⟩ : NamespaceDetail))].map
           (fun e => "- " ++ e.1 ++ ": " ++ namespaceDetailRepr e.2)) ++
       segWl ++ String.intercalate "\n"
         ([("jobs", ["j1", "j2"])].map
           (fun e => "- " ++ e.1 ++ ": " ++ toString e.2.length ++ " items")) ++
       segSvc ++ String.intercalate "\n"
         ([("ns8", [(⟨"s8", "NodePort", "10.0.0.8"⟩ : ServiceRecord)])].map
           (fun e => "- " ++ e.1 ++ ": " ++ pyListRepr (e.2.map serviceRecordRepr))) ++
       segPod ++ String.intercalate "\n"
         (infoW8.pod_info.map
           (fun e => "- " ++ e.1 ++ ": " ++ pyListRepr (e.2.map podRecordRepr))) ++
       segCont ++ String.intercalate "\n"
         (infoW8.container_info.map
           (fun e => "- " ++ e.1 ++ ": " ++ pyListRepr (e.2.map containerRecordRepr))) ++
       segFixed ++ segQuery ++ "z" ++ segEnd) :=
  (c8_prompt_deterministic_fixed_order infoW8 "z").2
    [("n8", nodeDetail1)] [("ns8", ⟨["q"], []⟩)] [("jobs", ["j1", "j2"])]
    [("ns8", [⟨"s8", "NodePort", "10.0.0.8"⟩])] rfl rfl rfl rfl

/-- C7: the spec-modelled router classifies a query containing
`cluster info` (any case) as `ClusterInfoIntent`; otherwise a query
containing `pod info` as `PodInfoIntent`, whose namespace is `default`
when `namespace` is absent and otherwise the trimmed text after the
last occurrence of `namespace` (the hypothesis that no occurrence
starts after the exhibited one pins it as the last); and every other
query as `GeneratedAnswerIntent`. -/
theorem c7_intent_routing (q : String) :
    (∀ x y : String, toLowerStr q = x ++ "cluster info" ++ y →
      classify q = Intent.clusterInfo) ∧
    (containsSub (toLowerStr q) "cluster info" = false →
      ∀ x y : String, toLowerStr q = x ++ "pod info" ++ y →
        ((containsSub (toLowerStr q) "namespace" = false →
            classify q = Intent.podInfo "default") ∧
         (∀ u v : String, toLowerStr q = u ++ "namespace" ++ v →
            containsSub (dropStr 1 ("namespace" ++ v)) "namespace" = false →
            classify q = Intent.podInfo (pyStrip v)))) ∧
    (containsSub (toLowerStr q) "cluster info" = false →
      containsSub (toLowerStr q) "pod info" = false →
      classify q = Intent.generatedAnswer) := by
  refine ⟨?_, ?_, ?_⟩
  · intro x y h
    have hc : containsSub (toLowerStr q) "cluster info" = true :=
      (containsSub_iff _ _).mpr ⟨x, y, h⟩
    simp [classify, hc]
  · intro hcf x y h
    have hp : containsSub (toLowerStr q) "pod info" = true :=
      (containsSub_iff _ _).mpr ⟨x, y, h⟩
    constructor
    · intro hnf
      simp [classify, hcf, hp, hnf]
    · intro u v hu hlast
      have hn : containsSub (toLowerStr q) "namespace" = true :=
        (containsSub_iff _ _).mpr ⟨u, v, hu⟩
      have hdata : (toLowerStr q).data = u.data ++ ("namespace").data ++ v.data := by
        rw [hu]; simp [strData_append]
      have h1 : (dropStr 1 ("namespace" ++ v)).data =
          ("namespace").data.drop 1 ++ v.data := by
        rw [dropStr]
        show ("namespace" ++ v).data.drop 1 = _
        rw [strData_append]
        exact List.drop_append_of_le_length (by decide)
      have hlast2 : containsAux ("namespace").data
          (("namespace").data.drop 1 ++ v.data) = false := by
        rw [containsSub, h1] at hlast
        exact hlast
      have hAL : afterLastAux ("namespace").data (toLowerStr q).data =
          Option.some v.data := by
        rw [hdata]
        exact afterLast_complete _ _ (by decide) hlast2 u.data
      simp [classify, hcf, hp, hn, hAL, strMkData]
  · intro h1 h2
    simp [classify, h1, h2]

/-- Witness for C7 at a concrete pod-info query with a namespace. -/
theorem c7_intent_routing_witness :
    classify "pod info namespace kube-system" = Intent.podInfo "kube-system" := by
  have h := ((c7_intent_routing "pod info namespace kube-system").2.1
    (by decide) "" " namespace kube-system" (by decide)).2
    "pod info " " kube-system" (by decide) (by decide)
  have ht : pyStrip " kube-system" = "kube-system" := by decide
  rw [h, ht]
